import Mathlib

/-!
Shallow embedding of the Vedawave chat backend (src/main.py,
src/websocket_manager.py, src/models.py) and proofs about its
message-lifecycle, presence, reaction, friendship and registry logic.

Database rows are modelled as Lean structures; a table is a `List` of rows
kept in insertion order (SQLAlchemy autoincrement ids are modelled by
`nextMessageId`; `ORDER BY created_at ASC` on rows appended in creation
order is the identity).  Timestamps are `Nat` and supplied by the caller
(the `now` argument stands for `datetime.utcnow()`).  Each HTTP or
websocket handler becomes a pure function from the committed database
state (plus the in-memory `ConnectionManager`) to an `Outcome`: the
database state as of the last executed `db.commit()`, the list of frames
pushed over websockets before any exception, and the exception that
escaped the handler, if any.  Python exceptions are modelled by
`ApiError`; in particular `ApiError.attributeError` models the Python
`AttributeError` raised when `main.py` calls
`manager.update_message_status(...)` (lines 478 and 810), a method that
`ConnectionManager` (src/websocket_manager.py) never defines.
-/

namespace Vedawave

/-- A row of the `users` table (models.User); only the fields the claims
touch (identity, presence flag, last-seen stamp) are carried. -/
structure User where
  id : Nat
  isActive : Bool
  lastSeen : Nat
deriving Repr, DecidableEq

/-- A row of the `chats` table (models.Chat): a pair of participant ids. -/
structure Chat where
  id : Nat
  user1Id : Nat
  user2Id : Nat
deriving Repr, DecidableEq

/-- A row of the `messages` table (models.Message). -/
structure Msg where
  id : Nat
  content : String
  isEdited : Bool
  isDeleted : Bool
  senderId : Nat
  chatId : Nat
  messageType : String
  replyToMessageId : Option Nat
  status : String
  deliveredAt : Option Nat
  seenAt : Option Nat
  createdAt : Nat
deriving Repr, DecidableEq

/-- A row of the `attachments` table (models.Attachment). -/
structure Attachment where
  messageId : Nat
  filename : String
  fileUrl : String
  fileType : String
  fileSize : Nat
deriving Repr, DecidableEq

/-- A row of the `message_reactions` table (models.MessageReaction). -/
structure MessageReaction where
  messageId : Nat
  userId : Nat
  emoji : String
deriving Repr, DecidableEq

/-- A row of the `friend_requests` table (models.FriendRequest). -/
structure FriendRequest where
  id : Nat
  senderId : Nat
  receiverId : Nat
  status : String
deriving Repr, DecidableEq

/-- A row of the `friendships` table (models.Friendship). -/
structure Friendship where
  user1Id : Nat
  user2Id : Nat
deriving Repr, DecidableEq

/-- The persisted state: one list per table, rows in insertion order. -/
structure DB where
  chats : List Chat
  messages : List Msg
  attachments : List Attachment
  reactions : List MessageReaction
  friendRequests : List FriendRequest
  friendships : List Friendship
deriving Repr, DecidableEq

/-- The attachment payload of an inbound `message` frame
(main.py lines 753-761). -/
structure AttachmentData where
  filename : String
  fileUrl : String
  fileType : String
  fileSize : Nat
deriving Repr, DecidableEq

/-- An inbound websocket `message` frame (main.py lines 738-745). -/
structure MessageFrame where
  content : String
  chatId : Nat
  messageType : String
  replyToMessageId : Option Nat
  attachments : List AttachmentData
deriving Repr, DecidableEq

/-- One emoji bucket of the reaction aggregation the handlers broadcast
(main.py lines 509-515 and 639-645). -/
structure ReactionGroup where
  emoji : String
  count : Nat
  users : List Nat
deriving Repr, DecidableEq

/-- A frame pushed to one recipient's websocket; the first `Nat` of each
constructor is the recipient's user id. -/
inductive Event where
  | messagePush (dest : Nat) (messageId chatId senderId : Nat) (content : String)
      (attachments : List Attachment)
  | messageEdited (dest : Nat) (messageId chatId : Nat) (content : String) (editedBy : Nat)
  | messageDeleted (dest : Nat) (messageId chatId deletedBy : Nat)
  | reactionPush (dest : Nat) (action : String) (messageId chatId userId : Nat)
      (emoji : String) (reactions : List ReactionGroup)
  | userStatus (dest : Nat) (userId : Nat) (isOnline : Bool)
  | typingPush (dest : Nat) (userId chatId : Nat) (isTyping : Bool)
  | pong (dest : Nat)
deriving Repr, DecidableEq

/-- Exceptions a handler can surface: `HTTPException(404)`,
`HTTPException(403)`, and the Python `AttributeError` raised by calling
the undefined method `manager.update_message_status`. -/
inductive ApiError where
  | notFound
  | forbidden
  | attributeError
deriving Repr, DecidableEq

/-- Result of running one handler: the database state as of the last
executed `db.commit()`, the frames pushed before any exception, and the
exception that escaped, if any. -/
structure Outcome where
  db : DB
  events : List Event
  error : Option ApiError
deriving Repr, DecidableEq

/-- The in-memory connection registry
(src/websocket_manager.py, class ConnectionManager): `active_connections`
maps a user id to its live websocket, modelled as an association list
with at most one entry per user id; the second component is a handle
standing for the websocket object. -/
structure ConnectionManager where
  activeConnections : List (Nat × Nat)
deriving Repr, DecidableEq

/-- `connect` (websocket_manager.py lines 11-15): store the new session
under the user id, replacing any prior entry (Python dict assignment). -/
def ConnectionManager.connect (m : ConnectionManager) (ws userId : Nat) :
    ConnectionManager :=
  ⟨(userId, ws) :: m.activeConnections.filter (fun p => p.1 != userId)⟩

/-- `disconnect` (websocket_manager.py lines 17-21): delete the user's
entry whenever one exists; the method takes no websocket argument and
performs no comparison with the stored session. -/
def ConnectionManager.disconnect (m : ConnectionManager) (userId : Nat) :
    ConnectionManager :=
  ⟨m.activeConnections.filter (fun p => p.1 != userId)⟩

/-- `is_user_online` (websocket_manager.py lines 65-67): membership test
on `active_connections`. -/
def ConnectionManager.isOnline (m : ConnectionManager) (userId : Nat) : Bool :=
  m.activeConnections.any (fun p => p.1 == userId)

/-- The websocket stored for a user, if any (dict lookup on
`active_connections`). -/
def ConnectionManager.lookup (m : ConnectionManager) (userId : Nat) : Option Nat :=
  (m.activeConnections.find? (fun p => p.1 == userId)).map Prod.snd

/-- `send_to_user` (websocket_manager.py lines 30-38): push the frame if
the user has a registered session, else do nothing.  Successful sends are
recorded as events; the send itself is modelled as always succeeding
(no claim concerns DeliveryFailure eviction). -/
def ConnectionManager.sendToUser (m : ConnectionManager) (userId : Nat)
    (mk : Nat → Event) : List Event :=
  if m.isOnline userId then [mk userId] else []

/-- `send_to_users` (websocket_manager.py lines 40-48): push the frame to
every listed user that has a registered session. -/
def ConnectionManager.sendToUsers (m : ConnectionManager) (userIds : List Nat)
    (mk : Nat → Event) : List Event :=
  (userIds.filter (fun u => m.isOnline u)).map mk

/-- `broadcast` (websocket_manager.py lines 50-59): push the frame to
every registered session. -/
def ConnectionManager.broadcastAll (m : ConnectionManager) (mk : Nat → Event) :
    List Event :=
  m.activeConnections.map (fun p => mk p.1)

/-- `send_user_status_update` (websocket_manager.py lines 80-88): build a
`user_status` frame and broadcast it to every registered session.  Note:
this method is defined but no code in main.py ever calls it. -/
def ConnectionManager.sendUserStatusUpdate (m : ConnectionManager)
    (userId : Nat) (isOnline : Bool) : List Event :=
  m.broadcastAll (fun dest => .userStatus dest userId isOnline)

/-- `db.query(Message).filter(Message.id == message_id).first()`. -/
def findMessage (db : DB) (messageId : Nat) : Option Msg :=
  db.messages.find? (fun msg => msg.id == messageId)

/-- `db.query(Chat).filter(Chat.id == chat_id).first()`. -/
def findChat (db : DB) (chatId : Nat) : Option Chat :=
  db.chats.find? (fun c => c.id == chatId)

/-- Apply an in-place ORM mutation to the message row with the given id
(the row object mutated by the handler and then committed). -/
def updateMessage (db : DB) (messageId : Nat) (f : Msg → Msg) : DB :=
  { db with messages :=
      db.messages.map (fun msg => if msg.id == messageId then f msg else msg) }

/-- Whether the three-column filter of the reaction endpoint
(`filter_by(message_id=..., user_id=..., emoji=...)`, main.py lines
601-605) matches a row. -/
def matchTriple (messageId userId : Nat) (emoji : String)
    (r : MessageReaction) : Bool :=
  r.messageId == messageId && r.userId == userId && r.emoji == emoji

/-- `db.delete(existing_reaction)` where `existing_reaction` is the row
returned by `.first()`: remove the first matching row only. -/
def eraseFirstBy (p : MessageReaction → Bool) :
    List MessageReaction → List MessageReaction
  | [] => []
  | r :: rs => if p r then rs else r :: eraseFirstBy p rs

/-- The emoji grouping loop shared by get_messages (main.py 502-506) and
add_reaction (632-636): fold one reaction row into the accumulator,
preserving first-occurrence order of emojis and insertion order of users. -/
def insertReaction (groups : List (String × List Nat)) (r : MessageReaction) :
    List (String × List Nat) :=
  if groups.any (fun g => g.1 == r.emoji) then
    groups.map (fun g => if g.1 == r.emoji then (g.1, g.2 ++ [r.userId]) else g)
  else groups ++ [(r.emoji, [r.userId])]

/-- The `formatted_reactions` aggregation a handler broadcasts for a
message: group the message's reaction rows by emoji, then emit
`{emoji, count, users}` buckets (main.py lines 499-515 and 628-645). -/
def formatReactions (db : DB) (messageId : Nat) : List ReactionGroup :=
  let rs := db.reactions.filter (fun r => r.messageId == messageId)
  (rs.foldl insertReaction []).map (fun g => ⟨g.1, g.2.length, g.2⟩)

/-- PUT /api/messages/{message_id} (main.py lines 543-584, edit_message):
404 if the message does not exist; 403 if the caller is not the sender;
otherwise overwrite content, set the edited flag, commit, then broadcast
`message_edited` to both chat participants.  The chat lookup after the
commit dereferences `chat.user1_id`; a missing chat row would raise
AttributeError with the edit already committed. -/
def edit_message (db : DB) (manager : ConnectionManager) (messageId : Nat)
    (newContent : String) (currentUserId : Nat) : Outcome :=
  match findMessage db messageId with
  | none => ⟨db, [], some .notFound⟩
  | some msg =>
    if msg.senderId == currentUserId then
      let db1 := updateMessage db messageId
        (fun m => { m with content := newContent, isEdited := true })
      match findChat db1 msg.chatId with
      | none => ⟨db1, [], some .attributeError⟩
      | some chat =>
        ⟨db1,
         manager.sendToUsers [chat.user1Id, chat.user2Id]
           (fun dest => .messageEdited dest messageId msg.chatId newContent currentUserId),
         none⟩
    else ⟨db, [], some .forbidden⟩

/-- DELETE /api/messages/{message_id} (main.py lines 661-691,
delete_message): 404 if missing, 403 if the caller is not the sender;
otherwise look up the chat, replace the content with the tombstone string,
set the deleted flag, commit, and broadcast `message_deleted` to both
participants. -/
def delete_message (db : DB) (manager : ConnectionManager) (messageId : Nat)
    (currentUserId : Nat) : Outcome :=
  match findMessage db messageId with
  | none => ⟨db, [], some .notFound⟩
  | some msg =>
    if msg.senderId == currentUserId then
      match findChat db msg.chatId with
      | none => ⟨db, [], some .attributeError⟩
      | some chat =>
        let db1 := updateMessage db messageId
          (fun m => { m with isDeleted := true, content := "This message was deleted" })
        ⟨db1,
         manager.sendToUsers [chat.user1Id, chat.user2Id]
           (fun dest => .messageDeleted dest messageId msg.chatId currentUserId),
         none⟩
    else ⟨db, [], some .forbidden⟩

/-- POST /api/messages/{message_id}/reactions (main.py lines 589-659,
add_reaction): 404 if the message does not exist; no participant or
access check beyond that.  If a (message, user, emoji) row exists, delete
it (action "removed"), else insert one (action "added"); commit; then
look up the chat, recompute the full aggregation and broadcast it to both
participants tagged with the action and the acting user. -/
def add_reaction (db : DB) (manager : ConnectionManager) (messageId : Nat)
    (emoji : String) (currentUserId : Nat) : Outcome :=
  match findMessage db messageId with
  | none => ⟨db, [], some .notFound⟩
  | some msg =>
    let existing := db.reactions.any (matchTriple messageId currentUserId emoji)
    let db1 : DB :=
      if existing then
        { db with reactions :=
            eraseFirstBy (matchTriple messageId currentUserId emoji) db.reactions }
      else
        { db with reactions := db.reactions ++ [⟨messageId, currentUserId, emoji⟩] }
    let action := if existing then "removed" else "added"
    match findChat db1 msg.chatId with
    | none => ⟨db1, [], some .attributeError⟩
    | some chat =>
      ⟨db1,
       manager.sendToUsers [chat.user1Id, chat.user2Id]
         (fun dest => .reactionPush dest action messageId msg.chatId currentUserId
           emoji (formatReactions db1 messageId)),
       none⟩

/-- The per-message guard of the seen-marking loop in get_messages
(main.py line 468): the row belongs to the fetched chat, was not sent by
the viewer, and is not yet seen. -/
def needsSeen (chatId viewerId : Nat) (msg : Msg) : Bool :=
  msg.chatId == chatId && msg.senderId != viewerId && msg.status != "seen"

/-- GET /api/chats/{chat_id}/messages (main.py lines 452-541,
get_messages): 404 unless the chat exists and the viewer is one of its
two participants.  Every message of the chat not sent by the viewer and
not yet seen is set to status "seen" with seen_at stamped, and committed.
If any message was so marked, the notification loop then calls
`manager.update_message_status` — a method ConnectionManager does not
define — so Python raises AttributeError after the commit and before any
notification is pushed; otherwise the handler returns the message list
(the response payload itself is not modelled). -/
def get_messages (db : DB) (chatId viewerId now : Nat) : Outcome :=
  match db.chats.find? (fun c =>
      c.id == chatId && (c.user1Id == viewerId || c.user2Id == viewerId)) with
  | none => ⟨db, [], some .notFound⟩
  | some _ =>
    if db.messages.any (needsSeen chatId viewerId) then
      let db1 := { db with messages := db.messages.map (fun msg =>
        if needsSeen chatId viewerId msg then
          { msg with status := "seen", seenAt := some now }
        else msg) }
      ⟨db1, [], some .attributeError⟩
    else ⟨db, [], none⟩

/-- PUT /api/friend-requests/{request_id} (main.py lines 388-426,
update_friend_request): 404 unless a request with this id addressed to
the caller exists; overwrite its status with the submitted one and
commit; then, whenever the stored status now reads "accepted", append a
new Friendship row for the pair — with no check of the previous status
and no duplicate check. -/
def update_friend_request (db : DB) (requestId : Nat) (newStatus : String)
    (currentUserId : Nat) : Outcome :=
  match db.friendRequests.find? (fun r =>
      r.id == requestId && r.receiverId == currentUserId) with
  | none => ⟨db, [], some .notFound⟩
  | some req =>
    let db1 := { db with friendRequests := db.friendRequests.map (fun r =>
      if r.id == requestId then { r with status := newStatus } else r) }
    let db2 :=
      if newStatus == "accepted" then
        { db1 with friendships := db1.friendships ++ [⟨req.senderId, req.receiverId⟩] }
      else db1
    ⟨db2, [], none⟩

/-- SQLAlchemy autoincrement primary key for a new `messages` row. -/
def nextMessageId (db : DB) : Nat :=
  db.messages.foldl (fun acc m => max acc m.id) 0 + 1

/-- The Message row built for an inbound `message` frame
(main.py lines 740-746): content, sender, chat, type and reply-to from
the frame; every model default applies (status "sent", flags false,
delivered_at and seen_at NULL). -/
def newMessageOf (db : DB) (userId : Nat) (frame : MessageFrame) (now : Nat) : Msg :=
  { id := nextMessageId db
    content := frame.content
    isEdited := false
    isDeleted := false
    senderId := userId
    chatId := frame.chatId
    messageType := frame.messageType
    replyToMessageId := frame.replyToMessageId
    status := "sent"
    deliveredAt := none
    seenAt := none
    createdAt := now }

/-- The database state after the first commit of the `message` branch
(main.py line 748): the new message row alone is durable. -/
def message_commit1 (db : DB) (userId : Nat) (frame : MessageFrame) (now : Nat) : DB :=
  { db with messages := db.messages ++ [newMessageOf db userId frame now] }

/-- The Attachment rows built from the frame's attachment payloads
(main.py lines 754-762), keyed to the new message id. -/
def newAttachmentsOf (db : DB) (frame : MessageFrame) : List Attachment :=
  frame.attachments.map (fun a =>
    ⟨nextMessageId db, a.filename, a.fileUrl, a.fileType, a.fileSize⟩)

/-- The database state after the second commit of the `message` branch
(main.py line 769), executed only when the frame carries attachments:
the attachment rows become durable in a commit separate from (and later
than) the one that made the message row visible. -/
def message_commit2 (db : DB) (userId : Nat) (frame : MessageFrame) (now : Nat) : DB :=
  let db1 := message_commit1 db userId frame now
  if frame.attachments.isEmpty then db1
  else { db1 with attachments := db1.attachments ++ newAttachmentsOf db frame }

/-- The sequence of commits the `message` branch executes, in order: the
message alone, then (when attachments are present) message plus
attachments.  The third `db.commit()` of the branch (line 812) is never
reached, because the delivery loop raises AttributeError first; each
listed state is one an observer (or a failure of the next write) can
expose. -/
def message_frame_commits (db : DB) (userId : Nat) (frame : MessageFrame)
    (now : Nat) : List DB :=
  if frame.attachments.isEmpty then
    [message_commit1 db userId frame now]
  else
    [message_commit1 db userId frame now, message_commit2 db userId frame now]

/-- The websocket `message` branch (main.py lines 738-812): commit the
new message, commit its attachments (if any), look up the chat
(`chat.user1_id` on a missing chat raises AttributeError), fan the
message payload out to both participants, then loop over the non-sender
participants issuing delivered transitions.  The first such participant
triggers `manager.update_message_status`, which ConnectionManager does
not define: Python raises AttributeError before `message.delivered_at`
is assigned and before the final commit, so the message stays at status
"sent" with delivered_at NULL and the connection handler dies. -/
def handle_message_frame (db : DB) (manager : ConnectionManager) (userId : Nat)
    (frame : MessageFrame) (now : Nat) : Outcome :=
  let newId := nextMessageId db
  let db2 := message_commit2 db userId frame now
  match findChat db2 frame.chatId with
  | none => ⟨db2, [], some .attributeError⟩
  | some chat =>
    let participants := [chat.user1Id, chat.user2Id]
    let events := manager.sendToUsers participants
      (fun dest => .messagePush dest newId frame.chatId userId frame.content
        (newAttachmentsOf db frame))
    if participants.any (fun p => p != userId) then
      ⟨db2, events, some .attributeError⟩
    else ⟨db2, events, none⟩

/-- Result of the websocket connect sequence: the updated registry, the
updated user row, and the frames pushed. -/
structure PresenceResult where
  manager : ConnectionManager
  user : User
  events : List Event
deriving Repr, DecidableEq

/-- The registration sequence of the websocket endpoint (main.py lines
726-731): `manager.connect` stores the session, then the user row is
marked active with last_seen stamped and committed.  No frame of any
kind is pushed: `send_user_status_update` is never invoked. -/
def wsRegister (manager : ConnectionManager) (user : User) (ws now : Nat) :
    PresenceResult :=
  { manager := manager.connect ws user.id
    user := { user with isActive := true, lastSeen := now }
    events := [] }

/-- The disconnect sequence of the websocket endpoint (main.py lines
833-838): on WebSocketDisconnect, `manager.disconnect(user_id)` removes
the registry entry, then the user row is marked inactive with last_seen
stamped and committed.  No frame is pushed: `send_user_status_update` is
never invoked. -/
def wsUnregister (manager : ConnectionManager) (user : User) (now : Nat) :
    PresenceResult :=
  { manager := manager.disconnect user.id
    user := { user with isActive := false, lastSeen := now }
    events := [] }

/-- Registry fixture: users 1 and 2 online with sessions 101 and 102. -/
def mgr12 : ConnectionManager := ⟨[(1, 101), (2, 102)]⟩

/-- Chat fixture: chat 1 between users 1 and 2. -/
def chat1 : Chat := ⟨1, 1, 2⟩

/-- Message fixture: message 1 from user 1 in chat 1, at status "sent". -/
def msgSent : Msg := ⟨1, "hi", false, false, 1, 1, "text", none, "sent", none, none, 0⟩

/-- Base database fixture: chat 1 holding one sent message. -/
def db0 : DB := ⟨[chat1], [msgSent], [], [], [], []⟩

/-- Inbound frame fixture carrying one attachment. -/
def frame1 : MessageFrame :=
  ⟨"hello", 1, "text", none, [⟨"f.png", "/uploads/f.png", "image/png", 10⟩]⟩

/-- Inbound frame fixture without attachments. -/
def frameC1 : MessageFrame := ⟨"hello", 1, "text", none, []⟩

/-- History fixture: an unseen message from user 1 in chat 1. -/
def mA : Msg := ⟨1, "a", false, false, 1, 1, "text", none, "sent", none, none, 0⟩

/-- History fixture: a message sent by user 2 (the viewer) in chat 1. -/
def mB : Msg := ⟨2, "b", false, false, 2, 1, "text", none, "sent", none, none, 1⟩

/-- History fixture: an already-seen message from user 1, stamped at 50. -/
def mC : Msg := ⟨3, "c", false, false, 1, 1, "text", none, "seen", none, some 50, 2⟩

/-- Database fixture for the history fetch: chat 1 with three messages. -/
def dbC2 : DB := ⟨[chat1], [mA, mB, mC], [], [], [], []⟩

/-- Friend-request fixture: request 1 from user 1 to user 2, already
accepted, with the corresponding Friendship row already present. -/
def dbF : DB := ⟨[], [], [], [], [⟨1, 1, 2, "accepted"⟩], [⟨1, 2⟩]⟩

/-- Soft-deleted message fixture: message 1, tombstoned by its sender. -/
def msgDel : Msg :=
  ⟨1, "This message was deleted", false, true, 1, 1, "text", none, "sent", none, none, 0⟩

/-- Database fixture holding the soft-deleted message in chat 1. -/
def dbDel : DB := ⟨[chat1], [msgDel], [], [], [], []⟩

/-- User fixture: user 3, offline. -/
def userU3 : User := ⟨3, false, 0⟩

/-- User fixture: user 1, online. -/
def userU1 : User := ⟨1, true, 0⟩

/-- Filtering after erasing the first match drops exactly the head of the
filtered list. -/
theorem filter_eraseFirstBy (p : MessageReaction → Bool) (l : List MessageReaction) :
    (eraseFirstBy p l).filter p = (l.filter p).tail := by
  induction l with
  | nil => rfl
  | cons r rs ih =>
    by_cases h : p r
    · simp [eraseFirstBy, h]
    · simp [eraseFirstBy, h, ih]

/-- The tail of a list of length at most one is empty. -/
theorem tail_eq_nil_of_length_le_one {α : Type} (l : List α) (h : l.length ≤ 1) :
    l.tail = [] := by
  cases l with
  | nil => rfl
  | cons a l =>
    cases l with
    | nil => rfl
    | cons b l => simp at h

/-- A reaction list has no match exactly when its filtered image is empty. -/
theorem any_eq_false_iff_filter_eq_nil (p : MessageReaction → Bool)
    (l : List MessageReaction) : l.any p = false ↔ l.filter p = [] := by
  simp [List.any_eq_false, List.filter_eq_nil_iff]

/-- Filtering away one key leaves lookups of every other key unchanged. -/
theorem find?_filter_ne (l : List (Nat × Nat)) (uid v : Nat) (hv : v ≠ uid) :
    (l.filter (fun p => p.1 != uid)).find? (fun p => p.1 == v)
      = l.find? (fun p => p.1 == v) := by
  induction l with
  | nil => rfl
  | cons a l ih =>
    by_cases ha : a.1 = uid
    · have h2 : a.1 ≠ v := by omega
      simp [List.filter_cons, ha, h2, ih]
      exact (List.find?_cons_of_neg l (by simp [h2])).symm
    · by_cases hav : a.1 = v
      · simp [List.filter_cons, ha, hav, hv]
      · simp [List.filter_cons, ha, hav, hv, ih]

/-- After a disconnect, the disconnected user has no registry entry. -/
theorem lookup_disconnect_self (m : ConnectionManager) (uid : Nat) :
    (m.disconnect uid).lookup uid = none := by
  have h : (m.activeConnections.filter (fun p => p.1 != uid)).find?
      (fun p => p.1 == uid) = none := by
    rw [List.find?_eq_none]
    intro x hx
    have hq := (List.mem_filter.mp hx).2
    simp at hq ⊢
    exact hq
  simp [ConnectionManager.disconnect, ConnectionManager.lookup, h]

/-- A user is online right after its own connect. -/
theorem isOnline_connect_self (m : ConnectionManager) (ws uid : Nat) :
    (m.connect ws uid).isOnline uid = true := by
  simp [ConnectionManager.connect, ConnectionManager.isOnline]

/-- A user is offline right after its own disconnect. -/
theorem isOnline_disconnect_self (m : ConnectionManager) (uid : Nat) :
    (m.disconnect uid).isOnline uid = false := by
  rw [ConnectionManager.disconnect, ConnectionManager.isOnline, List.any_eq_false]
  intro x hx
  have hq := (List.mem_filter.mp hx).2
  simp at hq ⊢
  exact hq

/-- C4 counterexample: session 10 registers for user 1, session 20
replaces it, and a stale disconnect for user 1 — necessarily carrying no
session reference, since `disconnect` takes only the user id — evicts
the newer session 20, leaving the registry empty. -/
theorem C4_stale_disconnect_counterexample :
    (ConnectionManager.connect (ConnectionManager.connect ⟨[]⟩ 10 1) 20 1).lookup 1
      = some 20
    ∧ ((ConnectionManager.connect (ConnectionManager.connect ⟨[]⟩ 10 1) 20 1).disconnect
        1).activeConnections = [] := by
  decide

/-- C4 (amended): `disconnect(userID)` removes the user's registry entry
unconditionally whenever one exists — it takes no session reference and
performs no comparison with the stored one — while entries of every other
user are left unchanged. -/
theorem C4_unconditional_disconnect (m : ConnectionManager) (uid : Nat) :
    (m.disconnect uid).lookup uid = none
    ∧ ∀ v, v ≠ uid → (m.disconnect uid).lookup v = m.lookup v := by
  refine ⟨lookup_disconnect_self m uid, ?_⟩
  intro v hv
  simp only [ConnectionManager.disconnect, ConnectionManager.lookup]
  rw [find?_filter_ne m.activeConnections uid v hv]

/-- C4 witness: with users 1 and 2 registered, disconnecting user 1
empties its entry and leaves user 2's session 20 in place. -/
theorem C4_unconditional_disconnect_witness :
    (ConnectionManager.disconnect ⟨[(1, 10), (2, 20)]⟩ 1).lookup 1 = none
    ∧ (ConnectionManager.disconnect ⟨[(1, 10), (2, 20)]⟩ 1).lookup 2 = some 20 :=
  ⟨(C4_unconditional_disconnect ⟨[(1, 10), (2, 20)]⟩ 1).1,
   (C4_unconditional_disconnect ⟨[(1, 10), (2, 20)]⟩ 1).2 2 (by decide)⟩

/-- C5 counterexample: with users 1 and 2 registered, user 3's
registration and user 1's unregistration each push no frame at all — in
particular no `user_status` broadcast reaches the registered sessions,
though the claim requires one. -/
theorem C5_presence_no_broadcast_counterexample :
    (wsRegister mgr12 userU3 103 7).events = []
    ∧ (wsUnregister mgr12 userU1 9).events = []
    ∧ mgr12.activeConnections ≠ [] := by
  decide

/-- C5 (amended): on registration the user is marked active, last-seen is
stamped and the session is stored; on unregistration the user is marked
inactive, last-seen is stamped and the session is removed; but no
`user_status` event is broadcast in either case — `send_user_status_update`
exists yet is never invoked, so the event list is empty. -/
theorem C5_presence_updates (m : ConnectionManager) (u : User) (ws now : Nat) :
    ((wsRegister m u ws now).user.isActive = true
      ∧ (wsRegister m u ws now).user.lastSeen = now
      ∧ (wsRegister m u ws now).manager.isOnline u.id = true
      ∧ (wsRegister m u ws now).events = [])
    ∧ ((wsUnregister m u now).user.isActive = false
      ∧ (wsUnregister m u now).user.lastSeen = now
      ∧ (wsUnregister m u now).manager.isOnline u.id = false
      ∧ (wsUnregister m u now).events = []) := by
  refine ⟨⟨rfl, rfl, ?_, rfl⟩, ⟨rfl, rfl, ?_, rfl⟩⟩
  · exact isOnline_connect_self m ws u.id
  · exact isOnline_disconnect_self m u.id

/-- C9 counterexample: request 1 (user 1 → user 2) is already accepted
and the pair's Friendship row already exists; re-submitting status
"accepted" appends a second, duplicate Friendship row even though the
request did not move from pending to accepted. -/
theorem C9_duplicate_friendship_counterexample :
    dbF.friendRequests = [⟨1, 1, 2, "accepted"⟩]
    ∧ dbF.friendships = [⟨1, 2⟩]
    ∧ (update_friend_request dbF 1 "accepted" 2).db.friendships = [⟨1, 2⟩, ⟨1, 2⟩]
    ∧ (update_friend_request dbF 1 "accepted" 2).error = none := by
  decide

/-- C9 (amended): for a friend-request update addressed to the caller, a
Friendship row for the request's pair is appended exactly when the
submitted status is "accepted" — regardless of the request's previous
status, so repeated accepted updates append duplicate rows; any other
submitted status leaves the friendships table unchanged. -/
theorem C9_friendship_on_accepted (db : DB) (rid : Nat) (ns : String) (uid : Nat)
    (req : FriendRequest)
    (hreq : db.friendRequests.find? (fun r => r.id == rid && r.receiverId == uid)
      = some req) :
    ((update_friend_request db rid ns uid).db.friendships
        = if ns = "accepted" then db.friendships ++ [⟨req.senderId, req.receiverId⟩]
          else db.friendships)
    ∧ (update_friend_request db rid ns uid).error = none := by
  simp only [update_friend_request, hreq]
  by_cases h : ns = "accepted"
  · simp [h]
  · simp [h]

/-- C9 witness: re-accepting the already-accepted request 1 appends the
duplicate pair row. -/
theorem C9_friendship_on_accepted_witness :
    dbF.friendRequests.find? (fun r => r.id == 1 && r.receiverId == 2)
        = some ⟨1, 1, 2, "accepted"⟩
    ∧ ((update_friend_request dbF 1 "accepted" 2).db.friendships
        = if ("accepted" : String) = "accepted" then dbF.friendships ++ [⟨1, 2⟩]
          else dbF.friendships)
    ∧ (update_friend_request dbF 1 "accepted" 2).error = none :=
  ⟨by decide,
   (C9_friendship_on_accepted dbF 1 "accepted" 2 ⟨1, 1, 2, "accepted"⟩ (by decide)).1,
   (C9_friendship_on_accepted dbF 1 "accepted" 2 ⟨1, 1, 2, "accepted"⟩ (by decide)).2⟩

/-- The fold computing the running maximum only grows its accumulator. -/
theorem foldl_max_le_acc (l : List Msg) (acc : Nat) :
    acc ≤ l.foldl (fun acc m => max acc m.id) acc := by
  induction l generalizing acc with
  | nil => exact Nat.le_refl acc
  | cons m l ih => exact Nat.le_trans (Nat.le_max_left acc m.id) (ih (max acc m.id))

/-- Every member's id is bounded by the fold's running maximum. -/
theorem mem_id_le_foldl_max (l : List Msg) (x : Msg) (hx : x ∈ l) (acc : Nat) :
    x.id ≤ l.foldl (fun acc m => max acc m.id) acc := by
  induction hx generalizing acc with
  | head l => exact Nat.le_trans (Nat.le_max_right acc x.id) (foldl_max_le_acc l (max acc x.id))
  | tail b hmem ih => exact ih (max acc b.id)

/-- No existing message row carries the fresh autoincrement id. -/
theorem find?_messages_nextId (db : DB) :
    db.messages.find? (fun m => m.id == nextMessageId db) = none := by
  rw [List.find?_eq_none]
  intro x hx
  have h := mem_id_le_foldl_max db.messages x hx 0
  simp only [nextMessageId, beq_iff_eq]
  omega

/-- C3 counterexample: for the frame carrying one attachment, the first
committed state already exposes the new message (id 2) with an empty
attachment set, while the frame's attachment only becomes visible in the
second, separate commit — so message and attachments do not become
visible together. -/
theorem C3_atomicity_counterexample :
    frame1.attachments ≠ []
    ∧ (message_frame_commits db0 1 frame1 5).head?
        = some (message_commit1 db0 1 frame1 5)
    ∧ findMessage (message_commit1 db0 1 frame1 5) 2 = some (newMessageOf db0 1 frame1 5)
    ∧ (message_commit1 db0 1 frame1 5).attachments = []
    ∧ (message_commit2 db0 1 frame1 5).attachments
        = [⟨2, "f.png", "/uploads/f.png", "image/png", 10⟩] := by
  decide

/-- C3 (amended): for an inbound message frame carrying attachments, the
message row is committed first and the attachment rows in a second,
separate commit: the first committed state exposes the message with none
of its attachments (a failure of the attachment write leaves exactly this
state visible), and only the second committed state holds the message
together with all its attachments. -/
theorem C3_two_commit_visibility (db : DB) (uid : Nat) (frame : MessageFrame)
    (now : Nat)
    (hatt : frame.attachments ≠ [])
    (hfresh : db.attachments.all (fun a => a.messageId != nextMessageId db) = true) :
    message_frame_commits db uid frame now
      = [message_commit1 db uid frame now, message_commit2 db uid frame now]
    ∧ findMessage (message_commit1 db uid frame now) (nextMessageId db)
        = some (newMessageOf db uid frame now)
    ∧ (message_commit1 db uid frame now).attachments.filter
        (fun a => a.messageId == nextMessageId db) = []
    ∧ (message_commit2 db uid frame now).attachments.filter
        (fun a => a.messageId == nextMessageId db) = newAttachmentsOf db frame
    ∧ newAttachmentsOf db frame ≠ [] := by
  have hie : frame.attachments.isEmpty = false := by
    cases hl : frame.attachments with
    | nil => exact absurd hl hatt
    | cons a l => rfl
  have hfilter_db :
      db.attachments.filter (fun a => a.messageId == nextMessageId db) = [] := by
    rw [List.filter_eq_nil_iff]
    intro a ha
    have h := List.all_eq_true.mp hfresh a ha
    simp at h ⊢
    exact h
  have hkeep : (newAttachmentsOf db frame).filter
      (fun a => a.messageId == nextMessageId db) = newAttachmentsOf db frame := by
    rw [List.filter_eq_self]
    intro a ha
    simp only [newAttachmentsOf, List.mem_map] at ha
    obtain ⟨x, hx, rfl⟩ := ha
    simp
  refine ⟨?_, ?_, ?_, ?_, ?_⟩
  · simp [message_frame_commits, hie]
  · simp only [findMessage, message_commit1]
    rw [List.find?_append, find?_messages_nextId]
    simp [newMessageOf]
  · simpa [message_commit1] using hfilter_db
  · simp only [message_commit2, message_commit1, hie, Bool.false_eq_true, if_false]
    rw [List.filter_append]
    rw [show ({ db with messages := db.messages ++ [newMessageOf db uid frame now] } : DB).attachments
          = db.attachments from rfl] at *
    rw [hfilter_db, hkeep]
    simp
  · simpa [newAttachmentsOf] using hatt

/-- C3 witness: the two-commit split evaluated at the base fixture and
the one-attachment frame. -/
theorem C3_two_commit_visibility_witness :
    (frame1.attachments ≠ []
      ∧ db0.attachments.all (fun a => a.messageId != nextMessageId db0) = true)
    ∧ (message_frame_commits db0 1 frame1 5
        = [message_commit1 db0 1 frame1 5, message_commit2 db0 1 frame1 5]
      ∧ findMessage (message_commit1 db0 1 frame1 5) (nextMessageId db0)
          = some (newMessageOf db0 1 frame1 5)
      ∧ (message_commit1 db0 1 frame1 5).attachments.filter
          (fun a => a.messageId == nextMessageId db0) = []
      ∧ (message_commit2 db0 1 frame1 5).attachments.filter
          (fun a => a.messageId == nextMessageId db0) = newAttachmentsOf db0 frame1
      ∧ newAttachmentsOf db0 frame1 ≠ []) :=
  ⟨⟨by decide, by decide⟩,
   C3_two_commit_visibility db0 1 frame1 5 (by decide) (by decide)⟩

/-- C1 (code bug evaluation): an inbound message frame from user 1 in
chat 1, with user 2 online, persists the message at status "sent" and
fans the payload out to both participants, but then — instead of issuing
a delivered transition for the online non-sender participant 2 — the
handler raises AttributeError (`manager.update_message_status` does not
exist), leaving the status "sent" and delivered_at unset. -/
theorem C1_delivered_transition_crash :
    (handle_message_frame db0 mgr12 1 frameC1 5).error = some ApiError.attributeError
    ∧ (handle_message_frame db0 mgr12 1 frameC1 5).events
        = [Event.messagePush 1 2 1 1 "hello" [], Event.messagePush 2 2 1 1 "hello" []]
    ∧ findMessage (handle_message_frame db0 mgr12 1 frameC1 5).db 2
        = some (newMessageOf db0 1 frameC1 5)
    ∧ (newMessageOf db0 1 frameC1 5).status = "sent"
    ∧ (newMessageOf db0 1 frameC1 5).deliveredAt = none
    ∧ mgr12.isOnline 2 = true := by
  decide

/-- C2 (code bug evaluation): when viewer 2 fetches chat 1, the unseen
peer message mA transitions to "seen" with seen_at stamped and is
committed, the viewer's own message mB and the already-seen message mC
are left untouched (mC's seen_at keeps its original stamp 50) — but no
notification reaches the sender: the handler raises AttributeError
(`manager.update_message_status` does not exist) and pushes no event. -/
theorem C2_seen_fetch_crash :
    (get_messages dbC2 1 2 99).db.messages
      = [{ mA with status := "seen", seenAt := some 99 }, mB, mC]
    ∧ (get_messages dbC2 1 2 99).events = []
    ∧ (get_messages dbC2 1 2 99).error = some ApiError.attributeError
    ∧ mA.status = "sent" ∧ mA.seenAt = none
    ∧ mB.senderId = 2 ∧ mC.status = "seen" ∧ mC.seenAt = some 50 := by
  decide

/-- Mapping an id-guarded rewrite over the rows commutes with lookup. -/
theorem find_map_ite (l : List Msg) (mid k : Nat) (f : Msg → Msg)
    (hf : ∀ m, (f m).id = m.id) :
    (l.map (fun m => if m.id == mid then f m else m)).find? (fun m => m.id == k)
      = (l.find? (fun m => m.id == k)).map (fun m => if m.id == mid then f m else m) := by
  induction l with
  | nil => rfl
  | cons a l ih =>
    have hid : ((if a.id == mid then f a else a) : Msg).id = a.id := by
      by_cases h : (a.id == mid) = true <;> simp [h, hf]
    by_cases hk : a.id = k
    · have ha1 : (((if a.id == mid then f a else a) : Msg).id == k) = true := by
        rw [hid]
        simp [hk]
      have ha2 : (a.id == k) = true := by simp [hk]
      simp only [List.map_cons]
      rw [List.find?_cons_of_pos (p := fun m : Msg => m.id == k) _ ha1,
        List.find?_cons_of_pos (p := fun m : Msg => m.id == k) _ ha2]
      rfl
    · have ha1 : ¬ ((((if a.id == mid then f a else a) : Msg).id == k) = true) := by
        rw [hid]
        simp [hk]
      have ha2 : ¬ ((a.id == k) = true) := by simp [hk]
      simp only [List.map_cons]
      rw [List.find?_cons_of_neg (p := fun m : Msg => m.id == k) _ ha1,
        List.find?_cons_of_neg (p := fun m : Msg => m.id == k) _ ha2, ih]

/-- Lookup in an updated table: the updated row is rewritten, all other
rows are found unchanged. -/
theorem findMessage_updateMessage (db : DB) (mid k : Nat) (f : Msg → Msg)
    (hf : ∀ m, (f m).id = m.id) :
    findMessage (updateMessage db mid f) k
      = (findMessage db k).map (fun m => if m.id == mid then f m else m) :=
  find_map_ite db.messages mid k f hf

/-- Lookup of the updated row itself yields the rewritten row. -/
theorem findMessage_updateMessage_self (db : DB) (mid : Nat) (f : Msg → Msg)
    (hf : ∀ m, (f m).id = m.id) (msg : Msg) (hmsg : findMessage db mid = some msg) :
    findMessage (updateMessage db mid f) mid = some (f msg) := by
  rw [findMessage_updateMessage db mid mid f hf, hmsg]
  have hmsg' : db.messages.find? (fun m => m.id == mid) = some msg := hmsg
  have hm := List.find?_some hmsg'
  simp at hm
  simp [hm]

/-- Lookup of any other row is unchanged by the update. -/
theorem findMessage_updateMessage_other (db : DB) (mid k : Nat) (f : Msg → Msg)
    (hf : ∀ m, (f m).id = m.id) (hk : k ≠ mid) :
    findMessage (updateMessage db mid f) k = findMessage db k := by
  rw [findMessage_updateMessage db mid k f hf]
  cases hfind : findMessage db k with
  | none => rfl
  | some m =>
    have hfind' : db.messages.find? (fun x => x.id == k) = some m := hfind
    have hm := List.find?_some hfind'
    simp at hm
    have hne : m.id ≠ mid := by simp [hm, hk]
    simp [hne]

/-- C7: editing a message is permitted only to its original sender: a
sender edit updates the content, sets the edited flag, leaves every
other field of the row (in particular delivery status and deleted flag)
and every other message unchanged, and broadcasts a message_edited event
to both chat participants; an edit by any other user is rejected as
Forbidden with no mutation. -/
theorem C7_edit_only_sender (db : DB) (mgr : ConnectionManager) (mid : Nat)
    (nc : String) (uid : Nat) (msg : Msg) (chat : Chat)
    (hmsg : findMessage db mid = some msg)
    (hchat : findChat db msg.chatId = some chat)
    (h1 : mgr.isOnline chat.user1Id = true)
    (h2 : mgr.isOnline chat.user2Id = true) :
    (msg.senderId = uid →
      (edit_message db mgr mid nc uid).error = none
      ∧ (edit_message db mgr mid nc uid).events
          = [Event.messageEdited chat.user1Id mid msg.chatId nc uid,
             Event.messageEdited chat.user2Id mid msg.chatId nc uid]
      ∧ findMessage (edit_message db mgr mid nc uid).db mid
          = some { msg with content := nc, isEdited := true }
      ∧ ∀ k, k ≠ mid →
          findMessage (edit_message db mgr mid nc uid).db k = findMessage db k)
    ∧ (msg.senderId ≠ uid →
        edit_message db mgr mid nc uid = ⟨db, [], some ApiError.forbidden⟩) := by
  constructor
  · intro hs
    have hsb : (msg.senderId == uid) = true := by simp [hs]
    have heq : edit_message db mgr mid nc uid
        = ⟨updateMessage db mid (fun m => { m with content := nc, isEdited := true }),
           [Event.messageEdited chat.user1Id mid msg.chatId nc uid,
            Event.messageEdited chat.user2Id mid msg.chatId nc uid], none⟩ := by
      simp only [edit_message, hmsg, hsb, if_true]
      rw [show findChat (updateMessage db mid
            (fun m => { m with content := nc, isEdited := true })) msg.chatId
          = some chat from hchat]
      simp [ConnectionManager.sendToUsers, h1, h2]
    rw [heq]
    refine ⟨rfl, rfl, ?_, ?_⟩
    · exact findMessage_updateMessage_self db mid
        (fun m => { m with content := nc, isEdited := true }) (fun m => rfl) msg hmsg
    · intro k hk
      exact findMessage_updateMessage_other db mid k
        (fun m => { m with content := nc, isEdited := true }) (fun m => rfl) hk
  · intro hs
    have hsb : ¬ ((msg.senderId == uid) = true) := by simp [hs]
    simp [edit_message, hmsg, hsb]

/-- C7 witness: user 1 edits its own message 1 in chat 1, and user 2's
attempt is Forbidden without mutation. -/
theorem C7_edit_only_sender_witness :
    ((edit_message db0 mgr12 1 "new" 1).error = none
      ∧ (edit_message db0 mgr12 1 "new" 1).events
          = [Event.messageEdited 1 1 1 "new" 1, Event.messageEdited 2 1 1 "new" 1]
      ∧ findMessage (edit_message db0 mgr12 1 "new" 1).db 1
          = some { msgSent with content := "new", isEdited := true }
      ∧ ∀ k, k ≠ 1 →
          findMessage (edit_message db0 mgr12 1 "new" 1).db k = findMessage db0 k)
    ∧ edit_message db0 mgr12 1 "new" 2 = ⟨db0, [], some ApiError.forbidden⟩ :=
  ⟨(C7_edit_only_sender db0 mgr12 1 "new" 1 msgSent chat1 (by decide) (by decide)
      (by decide) (by decide)).1 (by decide),
   (C7_edit_only_sender db0 mgr12 1 "new" 2 msgSent chat1 (by decide) (by decide)
      (by decide) (by decide)).2 (by decide)⟩

/-- C10: soft deletion does not freeze a message: an edit of a
soft-deleted, tombstoned message by its original sender succeeds, the
tombstone content is overwritten with the fresh content, the edited flag
is set, and the deleted flag stays true — the row is simultaneously
marked deleted and carries fresh, non-tombstone content. -/
theorem C10_edit_after_delete (db : DB) (mgr : ConnectionManager) (mid : Nat)
    (nc : String) (uid : Nat) (msg : Msg) (chat : Chat)
    (hmsg : findMessage db mid = some msg)
    (hdel : msg.isDeleted = true)
    (_htomb : msg.content = "This message was deleted")
    (hs : msg.senderId = uid)
    (hchat : findChat db msg.chatId = some chat)
    (hnc : nc ≠ "This message was deleted") :
    (edit_message db mgr mid nc uid).error = none
    ∧ findMessage (edit_message db mgr mid nc uid).db mid
        = some { msg with content := nc, isEdited := true }
    ∧ ({ msg with content := nc, isEdited := true } : Msg).isDeleted = true
    ∧ ({ msg with content := nc, isEdited := true } : Msg).isEdited = true
    ∧ ({ msg with content := nc, isEdited := true } : Msg).content
        ≠ "This message was deleted" := by
  have hsb : (msg.senderId == uid) = true := by simp [hs]
  have heq : edit_message db mgr mid nc uid
      = ⟨updateMessage db mid (fun m => { m with content := nc, isEdited := true }),
         mgr.sendToUsers [chat.user1Id, chat.user2Id]
           (fun dest => Event.messageEdited dest mid msg.chatId nc uid), none⟩ := by
    simp only [edit_message, hmsg, hsb, if_true]
    rw [show findChat (updateMessage db mid
          (fun m => { m with content := nc, isEdited := true })) msg.chatId
        = some chat from hchat]
  rw [heq]
  refine ⟨rfl, ?_, ?_, rfl, ?_⟩
  · exact findMessage_updateMessage_self db mid
      (fun m => { m with content := nc, isEdited := true }) (fun m => rfl) msg hmsg
  · exact hdel
  · exact hnc

/-- C10 witness: editing the tombstoned message 1 with fresh content. -/
theorem C10_edit_after_delete_witness :
    (edit_message dbDel mgr12 1 "fresh" 1).error = none
    ∧ findMessage (edit_message dbDel mgr12 1 "fresh" 1).db 1
        = some { msgDel with content := "fresh", isEdited := true }
    ∧ ({ msgDel with content := "fresh", isEdited := true } : Msg).isDeleted = true
    ∧ ({ msgDel with content := "fresh", isEdited := true } : Msg).isEdited = true
    ∧ ({ msgDel with content := "fresh", isEdited := true } : Msg).content
        ≠ "This message was deleted" :=
  C10_edit_after_delete dbDel mgr12 1 "fresh" 1 msgDel chat1 (by decide) (by decide)
    (by decide) (by decide) (by decide) (by decide)

/-- C8 counterexample: user 3 is not a participant of chat 1, yet its
reaction call on message 1 succeeds and inserts a reaction row — the
operation neither surfaces NotFound nor leaves the database unmutated. -/
theorem C8_no_access_check_counterexample :
    chat1.user1Id ≠ 3 ∧ chat1.user2Id ≠ 3
    ∧ db0.reactions = []
    ∧ (add_reaction db0 mgr12 1 "x" 3).error = none
    ∧ (add_reaction db0 mgr12 1 "x" 3).db.reactions = [⟨1, 3, "x"⟩] := by
  decide

/-- C8 (amended): referencing a nonexistent message surfaces NotFound
with no mutation for the reaction, edit and delete operations, and
fetching history of a nonexistent chat — or of a chat the caller is not
a participant of — surfaces NotFound with no mutation; the reaction
toggle, however, checks only message existence: on an existing message
it never surfaces NotFound, and a call by any user (participant of the
message's chat or not) whose triple is absent appends the reaction row,
mutating the database. -/
theorem C8_notfound_guards (db : DB) (mgr : ConnectionManager)
    (mid cid uid now : Nat) (e nc : String) :
    (findMessage db mid = none →
      add_reaction db mgr mid e uid = ⟨db, [], some ApiError.notFound⟩
      ∧ edit_message db mgr mid nc uid = ⟨db, [], some ApiError.notFound⟩
      ∧ delete_message db mgr mid uid = ⟨db, [], some ApiError.notFound⟩)
    ∧ (db.chats.find? (fun c =>
        c.id == cid && (c.user1Id == uid || c.user2Id == uid)) = none →
      get_messages db cid uid now = ⟨db, [], some ApiError.notFound⟩)
    ∧ (∀ msg, findMessage db mid = some msg →
      (add_reaction db mgr mid e uid).error ≠ some ApiError.notFound)
    ∧ (∀ msg, findMessage db mid = some msg →
      db.reactions.any (matchTriple mid uid e) = false →
      (add_reaction db mgr mid e uid).db.reactions
        = db.reactions ++ [⟨mid, uid, e⟩]) := by
  refine ⟨?_, ?_, ?_, ?_⟩
  · intro h
    refine ⟨?_, ?_, ?_⟩
    · simp [add_reaction, h]
    · simp [edit_message, h]
    · simp [delete_message, h]
  · intro h
    simp [get_messages, h]
  · intro msg hmsg
    simp only [add_reaction, hmsg]
    split <;> simp
  · intro msg hmsg hnone
    simp only [add_reaction, hmsg, hnone, Bool.false_eq_true, if_false]
    split <;> rfl

/-- C8 witness: message 99 does not exist (NotFound, no mutation); user 3
is no participant of chat 1, so its history fetch is NotFound; yet user
3's reaction call on the existing message 1 is not NotFound and appends
the row. -/
theorem C8_notfound_guards_witness :
    (add_reaction db0 mgr12 99 "x" 3 = ⟨db0, [], some ApiError.notFound⟩
      ∧ edit_message db0 mgr12 99 "nc" 3 = ⟨db0, [], some ApiError.notFound⟩
      ∧ delete_message db0 mgr12 99 3 = ⟨db0, [], some ApiError.notFound⟩)
    ∧ get_messages db0 1 3 7 = ⟨db0, [], some ApiError.notFound⟩
    ∧ (add_reaction db0 mgr12 1 "x" 3).error ≠ some ApiError.notFound
    ∧ (add_reaction db0 mgr12 1 "x" 3).db.reactions = db0.reactions ++ [⟨1, 3, "x"⟩] :=
  ⟨(C8_notfound_guards db0 mgr12 99 1 3 7 "x" "nc").1 (by decide),
   (C8_notfound_guards db0 mgr12 99 1 3 7 "x" "nc").2.1 (by decide),
   (C8_notfound_guards db0 mgr12 1 1 3 7 "x" "nc").2.2.1 msgSent (by decide),
   (C8_notfound_guards db0 mgr12 1 1 3 7 "x" "nc").2.2.2 msgSent (by decide) (by decide)⟩

/-- C6: reacting is a toggle: with the (message, user, emoji) row unique,
as the endpoint maintains it, a call removes the row if present (action
"removed") and inserts it otherwise (action "added"), so two consecutive
identical calls restore the original existence state; each call
broadcasts the recomputed full emoji aggregation of the message to both
chat participants, tagged with the action and the acting user. -/
theorem C6_reaction_toggle (db : DB) (mgr : ConnectionManager) (mid uid : Nat)
    (e : String) (msg : Msg) (chat : Chat)
    (hmsg : findMessage db mid = some msg)
    (huniq : (db.reactions.filter (matchTriple mid uid e)).length ≤ 1)
    (hchat : findChat db msg.chatId = some chat)
    (h1 : mgr.isOnline chat.user1Id = true)
    (h2 : mgr.isOnline chat.user2Id = true) :
    ((add_reaction (add_reaction db mgr mid e uid).db mgr mid e uid).db.reactions.any
        (matchTriple mid uid e)
      = db.reactions.any (matchTriple mid uid e))
    ∧ (add_reaction db mgr mid e uid).events
        = [Event.reactionPush chat.user1Id
             (if db.reactions.any (matchTriple mid uid e) then "removed" else "added")
             mid msg.chatId uid e
             (formatReactions (add_reaction db mgr mid e uid).db mid),
           Event.reactionPush chat.user2Id
             (if db.reactions.any (matchTriple mid uid e) then "removed" else "added")
             mid msg.chatId uid e
             (formatReactions (add_reaction db mgr mid e uid).db mid)]
    ∧ (add_reaction db mgr mid e uid).error = none := by
  have htriple : matchTriple mid uid e ⟨mid, uid, e⟩ = true := by simp [matchTriple]
  by_cases hex : db.reactions.any (matchTriple mid uid e) = true
  · have ho1 : add_reaction db mgr mid e uid
        = ⟨{ db with reactions := eraseFirstBy (matchTriple mid uid e) db.reactions },
           [Event.reactionPush chat.user1Id "removed" mid msg.chatId uid e
              (formatReactions
                { db with reactions := eraseFirstBy (matchTriple mid uid e) db.reactions } mid),
            Event.reactionPush chat.user2Id "removed" mid msg.chatId uid e
              (formatReactions
                { db with reactions := eraseFirstBy (matchTriple mid uid e) db.reactions } mid)],
           none⟩ := by
      simp only [add_reaction, hmsg, hex, if_true]
      rw [show findChat
            ({ db with reactions := eraseFirstBy (matchTriple mid uid e) db.reactions } : DB)
            msg.chatId = some chat from hchat]
      simp [ConnectionManager.sendToUsers, h1, h2]
    have hfe : (eraseFirstBy (matchTriple mid uid e) db.reactions).filter
        (matchTriple mid uid e) = [] := by
      rw [filter_eraseFirstBy]
      exact tail_eq_nil_of_length_le_one _ huniq
    have hany1 : (eraseFirstBy (matchTriple mid uid e) db.reactions).any
        (matchTriple mid uid e) = false :=
      (any_eq_false_iff_filter_eq_nil _ _).mpr hfe
    have ho2 : (add_reaction (add_reaction db mgr mid e uid).db mgr mid e uid).db.reactions
        = eraseFirstBy (matchTriple mid uid e) db.reactions ++ [⟨mid, uid, e⟩] := by
      rw [ho1]
      simp only [add_reaction]
      rw [show findMessage
            ({ db with reactions := eraseFirstBy (matchTriple mid uid e) db.reactions } : DB)
            mid = some msg from hmsg]
      simp only [hany1, Bool.false_eq_true, if_false]
      split <;> rfl
    refine ⟨?_, ?_, ?_⟩
    · rw [ho2, hex]
      simp [List.any_append, htriple]
    · rw [ho1]
      simp [hex]
    · rw [ho1]
  · have hexf : db.reactions.any (matchTriple mid uid e) = false := by
      simpa using hex
    have ho1 : add_reaction db mgr mid e uid
        = ⟨{ db with reactions := db.reactions ++ [⟨mid, uid, e⟩] },
           [Event.reactionPush chat.user1Id "added" mid msg.chatId uid e
              (formatReactions { db with reactions := db.reactions ++ [⟨mid, uid, e⟩] } mid),
            Event.reactionPush chat.user2Id "added" mid msg.chatId uid e
              (formatReactions { db with reactions := db.reactions ++ [⟨mid, uid, e⟩] } mid)],
           none⟩ := by
      simp only [add_reaction, hmsg, hexf, Bool.false_eq_true, if_false]
      rw [show findChat ({ db with reactions := db.reactions ++ [⟨mid, uid, e⟩] } : DB)
            msg.chatId = some chat from hchat]
      simp [ConnectionManager.sendToUsers, h1, h2]
    have hany1 : (db.reactions ++ [(⟨mid, uid, e⟩ : MessageReaction)]).any
        (matchTriple mid uid e) = true := by
      simp [List.any_append, htriple]
    have hfilter_nil : db.reactions.filter (matchTriple mid uid e) = [] :=
      (any_eq_false_iff_filter_eq_nil _ _).mp hexf
    have ho2 : (add_reaction (add_reaction db mgr mid e uid).db mgr mid e uid).db.reactions
        = eraseFirstBy (matchTriple mid uid e) (db.reactions ++ [⟨mid, uid, e⟩]) := by
      rw [ho1]
      simp only [add_reaction]
      rw [show findMessage ({ db with reactions := db.reactions ++ [⟨mid, uid, e⟩] } : DB) mid
            = some msg from hmsg]
      simp only [hany1, if_true]
      split <;> rfl
    refine ⟨?_, ?_, ?_⟩
    · rw [ho2, hexf]
      apply (any_eq_false_iff_filter_eq_nil _ _).mpr
      rw [filter_eraseFirstBy, List.filter_append, hfilter_nil]
      simp [htriple]
    · rw [ho1]
      simp [hexf]
    · rw [ho1]

/-- C6 witness: user 2 toggles emoji "x" on message 1 in chat 1 with both
participants online; the triple is initially absent. -/
theorem C6_reaction_toggle_witness :
    ((add_reaction (add_reaction db0 mgr12 1 "x" 2).db mgr12 1 "x" 2).db.reactions.any
        (matchTriple 1 2 "x")
      = db0.reactions.any (matchTriple 1 2 "x"))
    ∧ (add_reaction db0 mgr12 1 "x" 2).events
        = [Event.reactionPush chat1.user1Id
             (if db0.reactions.any (matchTriple 1 2 "x") then "removed" else "added")
             1 msgSent.chatId 2 "x" (formatReactions (add_reaction db0 mgr12 1 "x" 2).db 1),
           Event.reactionPush chat1.user2Id
             (if db0.reactions.any (matchTriple 1 2 "x") then "removed" else "added")
             1 msgSent.chatId 2 "x" (formatReactions (add_reaction db0 mgr12 1 "x" 2).db 1)]
    ∧ (add_reaction db0 mgr12 1 "x" 2).error = none :=
  C6_reaction_toggle db0 mgr12 1 2 "x" msgSent chat1 (by decide) (by decide) (by decide)
    (by decide) (by decide)

end Vedawave
